import Mathlib

/-!
Shallow embedding of the fastapi-auth token lifecycle and credential engine:
src/core/security.py, src/core/config.py, src/auth/service.py,
src/auth/exceptions.py, src/auth/router.py, src/core/dependencies.py,
src/users/crud.py, src/users/models.py.

Time is modelled as integer Unix seconds (the code stores
int(datetime.timestamp())).  JWT signing (python-jose) is modelled by the
SignedToken inductive: a token string is either validly signed under the
configured secret, carrying its claims dict, or a string jose rejects
(bad structure or bad signature), abstracted by the jose error message.
The argon2 key derivation (passlib) is modelled by an abstract digest
function passed explicitly; a stored hash string is either a well-formed
argon2 PHC string (salt and digest) or a string no configured scheme
identifies, exactly the split passlib's CryptContext makes.
-/

namespace FastapiAuth

/-! ### config.py (Settings) -/

def ACCESS_TOKEN_EXPIRE_MINUTES : Int := 30

def REFRESH_TOKEN_EXPIRE_DAYS : Int := 7

/-! ### core/security.py: tokens -/

inductive TokenKind
  | access
  | refresh
deriving DecidableEq, Repr

def kindString : TokenKind → String
  | TokenKind.access => "access"
  | TokenKind.refresh => "refresh"

/-- The claims dict as built by create_access_token / create_refresh_token
and as returned by jose's jwt.decode. -/
structure JWTClaims where
  sub : String
  exp : Int
  iat : Int
  type : String
deriving DecidableEq, Repr

/-- A JWT string: either validly signed under the configured SECRET_KEY,
carrying its claims, or a string that jose's jwt.decode rejects
(unparseable structure or failed signature check), abstracted by the
jose error message it produces. -/
inductive SignedToken
  | valid (claims : JWTClaims)
  | malformed (joseMsg : String)
deriving DecidableEq, Repr

def create_access_token (user_id : Int) (now : Int) : SignedToken :=
  SignedToken.valid
    { sub := toString user_id
      exp := now + 60 * ACCESS_TOKEN_EXPIRE_MINUTES
      iat := now
      type := "access" }

def create_refresh_token (user_id : Int) (now : Int) : SignedToken :=
  SignedToken.valid
    { sub := toString user_id
      exp := now + 86400 * REFRESH_TOKEN_EXPIRE_DAYS
      iat := now
      type := "refresh" }

/-- Errors raised inside jose's jwt.decode: JWTError on a failed parse or
signature check, ExpiredSignatureError from claim validation. -/
inductive JoseError
  | signatureInvalid (msg : String)
  | expiredSignature
deriving DecidableEq, Repr

def JoseError.message : JoseError → String
  | JoseError.signatureInvalid m => m
  | JoseError.expiredSignature => "Signature has expired."

/-- jose jwt.decode with default options: signature/structure check first,
then claim validation; `_validate_exp` with zero leeway raises
ExpiredSignatureError exactly when `exp < now`. -/
def jose_decode (token : SignedToken) (now : Int) : Except JoseError JWTClaims :=
  match token with
  | SignedToken.malformed m => Except.error (JoseError.signatureInvalid m)
  | SignedToken.valid claims =>
    if claims.exp < now then Except.error JoseError.expiredSignature
    else Except.ok claims

/-- The JWTError raised out of decode_token (security.py): all three raise
sites produce a JWTError in Python; the constructors record which raise
site fired and what it carries. -/
inductive DecodeError
  | invalidToken (e : JoseError)
  | invalidPayload (typeField : String)
  | invalidTokenType (expected got : TokenKind)
deriving DecidableEq, Repr

def DecodeError.message : DecodeError → String
  | DecodeError.invalidToken e => "Invalid token: " ++ JoseError.message e
  | DecodeError.invalidPayload t => "Invalid token payload: " ++ t
  | DecodeError.invalidTokenType e g =>
      "Invalid token type. Expected " ++ kindString e ++ ", got " ++ kindString g

/-- TokenPayload (security.py): the pydantic model with
type a Literal of exactly "access" or "refresh". -/
structure TokenPayload where
  sub : String
  exp : Int
  iat : Int
  type : TokenKind
deriving DecidableEq, Repr

/-- The pydantic Literal validation of the type field: only "access" and
"refresh" are accepted, anything else is a ValidationError. -/
def parseKind (s : String) : Option TokenKind :=
  if s = "access" then some TokenKind.access
  else if s = "refresh" then some TokenKind.refresh
  else none

def decode_token (token : SignedToken) (expected_type : TokenKind) (now : Int) :
    Except DecodeError TokenPayload :=
  match jose_decode token now with
  | Except.error e => Except.error (DecodeError.invalidToken e)
  | Except.ok claims =>
    match parseKind claims.type with
    | none => Except.error (DecodeError.invalidPayload claims.type)
    | some k =>
      if k ≠ expected_type then
        Except.error (DecodeError.invalidTokenType expected_type k)
      else
        Except.ok { sub := claims.sub, exp := claims.exp, iat := claims.iat, type := k }

/-! ### core/security.py: password hashing (passlib CryptContext, argon2) -/

/-- A stored credential-hash string, split the way passlib's CryptContext
(schemes argon2 only) identifies it: a well-formed argon2 PHC string,
carrying its salt and digest parts, or a string no configured scheme
identifies. -/
inductive HashStr
  | argon2 (salt dig : String)
  | other (raw : String)
deriving DecidableEq, Repr

/-- passlib.exc.UnknownHashError (a ValueError subclass), raised by
CryptContext.verify when the hash string cannot be identified. -/
inductive PasslibError
  | unknownHash
deriving DecidableEq, Repr

/-- hash_password (security.py): pwd_context.hash draws a fresh random
salt and applies the argon2 key derivation; the salt is an explicit
argument here, the derivation is the abstract `digest` function. -/
def hash_password (digest : String → String → String) (password salt : String) : HashStr :=
  HashStr.argon2 salt (digest salt password)

/-- verify_password (security.py): delegates to pwd_context.verify, which
identifies the hash string, re-derives the digest with the stored salt,
and compares; an unidentifiable hash string raises UnknownHashError. -/
def verify_password (digest : String → String → String) (plain_password : String)
    (hashed_password : HashStr) : Except PasslibError Bool :=
  match hashed_password with
  | HashStr.argon2 salt dig => Except.ok (digest salt plain_password == dig)
  | HashStr.other _ => Except.error PasslibError.unknownHash

/-! ### users/models.py and users/crud.py -/

structure User where
  id : Int
  email : String
  hashed_password : HashStr
  is_active : Bool
deriving DecidableEq, Repr

/-- The user store is the list of rows of the users table. -/
def get_user_by_email (db : List User) (email : String) : Option User :=
  db.find? (fun u => u.email == email)

def get_user_by_id (db : List User) (user_id : Int) : Option User :=
  db.find? (fun u => u.id == user_id)

/-! ### auth/exceptions.py -/

/-- The exceptions login_user can raise: AuthenticationError(detail), and
its subclass InactiveUserError which fixes detail to
"Inactive user account". -/
inductive AuthExc
  | authenticationError (detail : String)
  | inactiveUserError
deriving DecidableEq, Repr

/-- HTTP rendering from auth/exceptions.py: AuthenticationError carries
status 401 (HTTP_401_UNAUTHORIZED) with its detail; InactiveUserError,
being an AuthenticationError with detail "Inactive user account", also
renders with status 401. -/
def AuthExc.toHTTP : AuthExc → Nat × String
  | AuthExc.authenticationError d => (401, d)
  | AuthExc.inactiveUserError => (401, "Inactive user account")

/-! ### core/schemas.py and auth/service.py -/

/-- Token (core/schemas.py): the login and refresh response model. -/
structure Token where
  access_token : SignedToken
  refresh_token : SignedToken
  token_type : String
deriving DecidableEq, Repr

/-- authenticate_user (service.py): look up by email; if no user, return
None at once; otherwise verify the password (which may raise
UnknownHashError, not caught here) and return the user or None. -/
def authenticate_user (digest : String → String → String) (db : List User)
    (email password : String) : Except PasslibError (Option User) :=
  match get_user_by_email db email with
  | none => Except.ok none
  | some user =>
    match verify_password digest password user.hashed_password with
    | Except.error e => Except.error e
    | Except.ok b => if b then Except.ok (some user) else Except.ok none

/-- How many times authenticate_user invokes verify_password (the
credential hasher), following its control flow: zero when the email
lookup finds no record (it returns None before the verify_password
call), one when a record is found. -/
def authenticate_user_hasher_calls (db : List User) (email : String) : Nat :=
  match get_user_by_email db email with
  | none => 0
  | some _ => 1

/-- Outcome of login_user: a Token, a raised auth exception, or an
exception from a lower layer that login_user does not catch. -/
inductive LoginResult
  | ok (t : Token)
  | raised (e : AuthExc)
  | uncaught (e : PasslibError)
deriving DecidableEq, Repr

/-- login_user (service.py): authenticate, then raise
AuthenticationError("Invalid email or password") on None, raise
InactiveUserError if the account is inactive, else mint both tokens. -/
def login_user (digest : String → String → String) (db : List User)
    (email password : String) (now : Int) : LoginResult :=
  match authenticate_user digest db email password with
  | Except.error e => LoginResult.uncaught e
  | Except.ok none =>
      LoginResult.raised (AuthExc.authenticationError "Invalid email or password")
  | Except.ok (some user) =>
    if user.is_active = false then LoginResult.raised AuthExc.inactiveUserError
    else
      LoginResult.ok
        { access_token := create_access_token user.id now
          refresh_token := create_refresh_token user.id now
          token_type := "bearer" }

/-! ### Python int() on subject strings -/

/-- Decimal digit run: none on an empty run or any non-digit character. -/
def pyDigits (cs : List Char) : Option Nat :=
  if cs.isEmpty then none
  else
    cs.foldl
      (fun acc c =>
        match acc with
        | none => none
        | some n => if c.isDigit then some (n * 10 + (c.toNat - 48)) else none)
      (some 0)

/-- Python int(s) on the subject strings arising here: an optional sign
followed by one or more decimal digits parses to the integer; anything
else models the ValueError raise.  (Python additionally strips
surrounding whitespace and allows underscore digit grouping; neither
form occurs in this system's subjects.) -/
def pyInt (s : String) : Option Int :=
  match s.toList with
  | '-' :: cs => (pyDigits cs).map (fun n => -(n : Int))
  | '+' :: cs => (pyDigits cs).map (fun n => (n : Int))
  | cs => (pyDigits cs).map (fun n => (n : Int))

/-! ### auth/router.py refresh endpoint -/

/-- Outcome of the refresh endpoint: a Token response, an HTTPException
(status, detail), or a ValueError from int() that no handler in the
endpoint catches. -/
inductive RefreshResult
  | ok (t : Token)
  | httpError (status : Nat) (detail : String)
  | uncaughtValueError (sub : String)
deriving DecidableEq, Repr

/-- refresh (router.py): the try/except wraps only the decode_token call
(any exception there → 401 "Invalid or expired refresh token");
int(token_payload.sub) runs outside it, so a non-numeric subject raises
an uncaught ValueError; an absent or inactive user → 401
"User no longer exists or is inactive"; otherwise mint a new access
token and return it with the presented refresh token. -/
def refresh (db : List User) (refresh_token : SignedToken) (now : Int) : RefreshResult :=
  match decode_token refresh_token TokenKind.refresh now with
  | Except.error _ => RefreshResult.httpError 401 "Invalid or expired refresh token"
  | Except.ok token_payload =>
    match pyInt token_payload.sub with
    | none => RefreshResult.uncaughtValueError token_payload.sub
    | some uid =>
      match get_user_by_id db uid with
      | none => RefreshResult.httpError 401 "User no longer exists or is inactive"
      | some user =>
        if user.is_active = false then
          RefreshResult.httpError 401 "User no longer exists or is inactive"
        else
          RefreshResult.ok
            { access_token := create_access_token user.id now
              refresh_token := refresh_token
              token_type := "bearer" }

/-! ### core/dependencies.py -/

/-- Outcome of get_current_user: the user, an HTTPException, or a
ValueError from int() that the JWTError handler does not cover. -/
inductive CurrentUserResult
  | ok (u : User)
  | httpError (status : Nat) (detail : String)
  | uncaughtValueError (sub : String)
deriving DecidableEq, Repr

/-- get_current_user (dependencies.py): decode_token failures are caught
as JWTError and re-raised as 401 with str(e); int(token_payload.sub)
runs after that handler, so a non-numeric subject raises an uncaught
ValueError; an absent user → 404 "User not found". -/
def get_current_user (db : List User) (token : SignedToken) (now : Int) : CurrentUserResult :=
  match decode_token token TokenKind.access now with
  | Except.error e => CurrentUserResult.httpError 401 (DecodeError.message e)
  | Except.ok token_payload =>
    match pyInt token_payload.sub with
    | none => CurrentUserResult.uncaughtValueError token_payload.sub
    | some user_id =>
      match get_user_by_id db user_id with
      | none => CurrentUserResult.httpError 404 "User not found"
      | some user => CurrentUserResult.ok user

/-! ### Spec vocabulary over the embedding -/

/-- TTL per kind, from config.py: 30 minutes for access tokens, 7 days
for refresh tokens, in seconds. -/
def TTL : TokenKind → Int
  | TokenKind.access => 60 * ACCESS_TOKEN_EXPIRE_MINUTES
  | TokenKind.refresh => 86400 * REFRESH_TOKEN_EXPIRE_DAYS

/-- The spec's mint(s, k, t): dispatch on the kind to
create_access_token / create_refresh_token. -/
def mint (subject : Int) (k : TokenKind) (now : Int) : SignedToken :=
  match k with
  | TokenKind.access => create_access_token subject now
  | TokenKind.refresh => create_refresh_token subject now

/-! ### Concrete fixtures used by witnesses and counterexamples -/

/-- A concrete argon2 digest stand-in for evaluating the model on
closed inputs. -/
def digest0 (salt password : String) : String := salt ++ ":" ++ password

/-- An active user whose stored hash is of password "right" under
digest0 with salt "salt". -/
def user0 : User :=
  { id := 1
    email := "a@x.com"
    hashed_password := hash_password digest0 "right" "salt"
    is_active := true }

/-- An inactive user whose stored hash is of password "right" under
digest0 with salt "s2". -/
def user1 : User :=
  { id := 2
    email := "b@x.com"
    hashed_password := hash_password digest0 "right" "s2"
    is_active := false }

/-- A user whose stored hash string no scheme identifies. -/
def user2 : User :=
  { id := 3
    email := "m@x.com"
    hashed_password := HashStr.other "not-a-hash"
    is_active := true }

def db0 : List User := [user0]

def db1 : List User := [user1]

def db2 : List User := [user2]

/-! ### Helper lemmas -/

theorem decode_token_valid_ok (c : JWTClaims) (k : TokenKind) (now : Int)
    (hexp : ¬ c.exp < now) (ht : c.type = kindString k) :
    decode_token (SignedToken.valid c) k now =
      Except.ok { sub := c.sub, exp := c.exp, iat := c.iat, type := k } := by
  simp only [decode_token, jose_decode]
  rw [if_neg hexp]
  simp only [ht]
  cases k <;> simp [parseKind, kindString]

theorem decode_token_valid_expired (c : JWTClaims) (k : TokenKind) (now : Int)
    (hexp : c.exp < now) :
    decode_token (SignedToken.valid c) k now =
      Except.error (DecodeError.invalidToken JoseError.expiredSignature) := by
  simp only [decode_token, jose_decode]
  rw [if_pos hexp]

theorem decode_token_valid_wrong_kind (c : JWTClaims) (k k2 : TokenKind) (now : Int)
    (hexp : ¬ c.exp < now) (ht : c.type = kindString k) (hne : k ≠ k2) :
    decode_token (SignedToken.valid c) k2 now =
      Except.error (DecodeError.invalidTokenType k2 k) := by
  simp only [decode_token, jose_decode]
  rw [if_neg hexp]
  simp only [ht]
  cases k <;> simp [parseKind, kindString] <;> exact hne

theorem get_user_by_id_id (db : List User) (uid : Int) (u : User)
    (h : get_user_by_id db uid = some u) : u.id = uid := by
  unfold get_user_by_id at h
  have := List.find?_some h
  simpa using this

/-! ### C1: token lifetime window -/

/-- C1 (amended): for every integer subject s, kind k and mint time t,
verifying the token minted by mint(s, k, t) with expected kind k
succeeds, returning claims with subject s, at every verification time
in [t, t + TTL(k)] — the exact instant t + TTL(k) included, since
jose's exp check with zero leeway only rejects when exp < now — and
fails with the expiry condition at every time strictly after
t + TTL(k), so tokens are valid on [issued_at, expires_at]. -/
theorem C1_token_lifetime (s : Int) (k : TokenKind) (t tp : Int) :
    (t ≤ tp → tp ≤ t + TTL k →
      decode_token (mint s k t) k tp =
        Except.ok { sub := toString s, exp := t + TTL k, iat := t, type := k }) ∧
    (t + TTL k < tp →
      decode_token (mint s k t) k tp =
        Except.error (DecodeError.invalidToken JoseError.expiredSignature)) := by
  constructor
  · intro h1 h2
    cases k with
    | access =>
      simp only [mint, create_access_token, TTL] at h2 ⊢
      exact decode_token_valid_ok _ _ _ (by simpa using h2) rfl
    | refresh =>
      simp only [mint, create_refresh_token, TTL] at h2 ⊢
      exact decode_token_valid_ok _ _ _ (by simpa using h2) rfl
  · intro h3
    cases k with
    | access =>
      simp only [mint, create_access_token, TTL] at h3 ⊢
      exact decode_token_valid_expired _ _ _ (by simpa using h3)
    | refresh =>
      simp only [mint, create_refresh_token, TTL] at h3 ⊢
      exact decode_token_valid_expired _ _ _ (by simpa using h3)

/-- C1 witness: subject 1, access kind, minted at 0: verification at 1799
(inside the window) succeeds with subject "1", and at 1801 (just past
the TTL) fails with the expiry error. -/
theorem C1_token_lifetime_witness :
    decode_token (mint 1 TokenKind.access 0) TokenKind.access 1799 =
      Except.ok { sub := "1", exp := 0 + TTL TokenKind.access, iat := 0,
                  type := TokenKind.access } ∧
    decode_token (mint 1 TokenKind.access 0) TokenKind.access 1801 =
      Except.error (DecodeError.invalidToken JoseError.expiredSignature) :=
  ⟨(C1_token_lifetime 1 TokenKind.access 0 1799).1 (by decide) (by decide),
   (C1_token_lifetime 1 TokenKind.access 0 1801).2 (by decide)⟩

/-- C1 counterexample: the claim says that at the exact boundary
t + TTL(k) the token is already invalid, but for subject 1, kind
access, minted at t = 0, verification at exactly 0 + TTL(access) = 1800
still succeeds: jose's exp validation (zero leeway) rejects only when
exp < now, so tokens are valid on [issued_at, expires_at], boundary
included. -/
theorem C1_boundary_counterexample :
    decode_token (mint 1 TokenKind.access 0) TokenKind.access (0 + TTL TokenKind.access) =
      Except.ok { sub := "1", exp := 1800, iat := 0, type := TokenKind.access } := rfl

/-! ### C7: wrong-kind tokens are never accepted -/

/-- C7: for every subject s, mint time t and verification time t'
(whether or not the token has expired), verifying a token minted with
kind access while expecting kind refresh fails, and verifying a token
minted with kind refresh while expecting kind access fails. -/
theorem C7_wrong_kind_rejected (s t tp : Int) :
    (∃ e, decode_token (create_access_token s t) TokenKind.refresh tp =
      Except.error e) ∧
    (∃ e, decode_token (create_refresh_token s t) TokenKind.access tp =
      Except.error e) := by
  constructor
  · by_cases h : t + 60 * ACCESS_TOKEN_EXPIRE_MINUTES < tp
    · exact ⟨_, decode_token_valid_expired _ _ _ h⟩
    · exact ⟨_, decode_token_valid_wrong_kind _ TokenKind.access _ _ h rfl (by decide)⟩
  · by_cases h : t + 86400 * REFRESH_TOKEN_EXPIRE_DAYS < tp
    · exact ⟨_, decode_token_valid_expired _ _ _ h⟩
    · exact ⟨_, decode_token_valid_wrong_kind _ TokenKind.refresh _ _ h rfl (by decide)⟩

/-! ### C2: wrong password and unknown email are indistinguishable -/

/-- C2: for every stored user set, login with an email that exists but a
wrong password and login with an email that does not exist both fail
with the identical error kind and the identical message text — both
raise AuthenticationError with detail "Invalid email or password", and
the two login results are equal. -/
theorem C2_login_failure_indistinguishable (digest : String → String → String)
    (db : List User) (email1 password1 email2 password2 : String)
    (now1 now2 : Int) (u : User)
    (h1 : get_user_by_email db email1 = some u)
    (h2 : verify_password digest password1 u.hashed_password = Except.ok false)
    (h3 : get_user_by_email db email2 = none) :
    login_user digest db email1 password1 now1 =
      LoginResult.raised (AuthExc.authenticationError "Invalid email or password") ∧
    login_user digest db email2 password2 now2 =
      LoginResult.raised (AuthExc.authenticationError "Invalid email or password") ∧
    login_user digest db email1 password1 now1 =
      login_user digest db email2 password2 now2 := by
  have e1 : login_user digest db email1 password1 now1 =
      LoginResult.raised (AuthExc.authenticationError "Invalid email or password") := by
    simp [login_user, authenticate_user, h1, h2]
  have e2 : login_user digest db email2 password2 now2 =
      LoginResult.raised (AuthExc.authenticationError "Invalid email or password") := by
    simp [login_user, authenticate_user, h3]
  exact ⟨e1, e2, e1.trans e2.symm⟩

/-- C2 witness: in the one-user store db0, a wrong password for the
stored email and a fresh email fail identically. -/
theorem C2_login_failure_indistinguishable_witness :
    login_user digest0 db0 "a@x.com" "wrong" 0 =
      LoginResult.raised (AuthExc.authenticationError "Invalid email or password") ∧
    login_user digest0 db0 "nobody@x.com" "wrong" 0 =
      LoginResult.raised (AuthExc.authenticationError "Invalid email or password") ∧
    login_user digest0 db0 "a@x.com" "wrong" 0 =
      login_user digest0 db0 "nobody@x.com" "wrong" 0 :=
  C2_login_failure_indistinguishable digest0 db0 "a@x.com" "wrong" "nobody@x.com"
    "wrong" 0 0 user0 rfl rfl rfl

/-! ### C3: the hasher is not invoked when the record is absent -/

/-- C3 is refuted by the code: when the email lookup finds no user
record, authenticate_user returns None at once — the credential hasher
is invoked zero times, with no dummy-hash call, while on a found record
it is invoked once.  Evaluated at the failing input (an empty store and
the email "nobody@example.com"). -/
theorem C3_short_circuit_on_absent_record :
    authenticate_user digest0 [] "nobody@example.com" "pw" = Except.ok none ∧
    authenticate_user_hasher_calls [] "nobody@example.com" = 0 ∧
    authenticate_user_hasher_calls db0 "a@x.com" = 1 :=
  ⟨rfl, rfl, rfl⟩

/-! ### C4: refresh returns the presented refresh token verbatim -/

/-- C4: every successful refresh call returns a pair whose refresh-token
field is byte-for-byte the presented token (no rotation), together
with an access token newly minted, at the call's time, for the user id
carried in the presented token's subject. -/
theorem C4_refresh_not_rotated (db : List User) (tok : SignedToken) (now : Int)
    (pair : Token) (h : refresh db tok now = RefreshResult.ok pair) :
    pair.refresh_token = tok ∧ pair.token_type = "bearer" ∧
    ∃ p uid, decode_token tok TokenKind.refresh now = Except.ok p ∧
      pyInt p.sub = some uid ∧ pair.access_token = create_access_token uid now := by
  unfold refresh at h
  cases hd : decode_token tok TokenKind.refresh now with
  | error e => rw [hd] at h; cases h
  | ok p =>
    rw [hd] at h
    cases hp : pyInt p.sub with
    | none => simp only [hp] at h; cases h
    | some uid =>
      simp only [hp] at h
      cases hg : get_user_by_id db uid with
      | none => simp only [hg] at h; cases h
      | some user =>
        simp only [hg] at h
        by_cases ha : user.is_active = false
        · rw [if_pos ha] at h; cases h
        · rw [if_neg ha] at h
          cases h
          have hid : user.id = uid := get_user_by_id_id db uid user hg
          exact ⟨rfl, rfl, p, uid, rfl, hp, by rw [hid]⟩

/-- C4 witness: refreshing the token minted for user 1 at time 0, at
time 10 against db0, succeeds; the returned pair carries the presented
refresh token unchanged and an access token minted for user 1 at 10. -/
theorem C4_refresh_not_rotated_witness :
    (Token.mk (create_access_token 1 10) (create_refresh_token 1 0)
        "bearer").refresh_token = create_refresh_token 1 0 ∧
    (Token.mk (create_access_token 1 10) (create_refresh_token 1 0)
        "bearer").token_type = "bearer" ∧
    ∃ p uid, decode_token (create_refresh_token 1 0) TokenKind.refresh 10 =
        Except.ok p ∧ pyInt p.sub = some uid ∧
      (Token.mk (create_access_token 1 10) (create_refresh_token 1 0)
        "bearer").access_token = create_access_token uid 10 :=
  C4_refresh_not_rotated db0 (create_refresh_token 1 0) 10
    (Token.mk (create_access_token 1 10) (create_refresh_token 1 0) "bearer") rfl

/-! ### C5: refresh failures are not all reported identically -/

/-- C5 is refuted by the code: a malformed refresh token is answered
with 401 "Invalid or expired refresh token", but a validly signed,
unexpired refresh token whose user is absent from the store — or
present but inactive — is answered with 401
"User no longer exists or is inactive": a different message text that
reveals the account's existence and state to the caller. -/
theorem C5_refresh_error_leaks_account_state :
    refresh [] (SignedToken.malformed "Not enough segments") 0 =
      RefreshResult.httpError 401 "Invalid or expired refresh token" ∧
    refresh [] (create_refresh_token 7 0) 5 =
      RefreshResult.httpError 401 "User no longer exists or is inactive" ∧
    refresh [User.mk 7 "c@x.com" (HashStr.other "h") false]
        (create_refresh_token 7 0) 5 =
      RefreshResult.httpError 401 "User no longer exists or is inactive" ∧
    RefreshResult.httpError 401 "Invalid or expired refresh token" ≠
      RefreshResult.httpError 401 "User no longer exists or is inactive" :=
  ⟨rfl, rfl, rfl, by decide⟩

/-! ### C6: inactive-account login error -/

/-- C6 (amended): for every user whose stored active flag is false, login
with that user's correct password fails with the distinct
InactiveUserError — a different error kind and message than the generic
credential failure — but it renders to the caller with the same
unauthorized status 401 as credential failures (InactiveUserError
subclasses AuthenticationError), detail "Inactive user account": the
distinction is in the message text only, not a forbidden-class
response. -/
theorem C6_inactive_login_distinct_error (digest : String → String → String)
    (db : List User) (email password : String) (now : Int) (u : User)
    (h1 : get_user_by_email db email = some u)
    (h2 : verify_password digest password u.hashed_password = Except.ok true)
    (h3 : u.is_active = false) :
    login_user digest db email password now =
      LoginResult.raised AuthExc.inactiveUserError ∧
    AuthExc.inactiveUserError ≠
      AuthExc.authenticationError "Invalid email or password" ∧
    AuthExc.toHTTP AuthExc.inactiveUserError = (401, "Inactive user account") ∧
    (AuthExc.toHTTP
      (AuthExc.authenticationError "Invalid email or password")).1 = 401 := by
  refine ⟨?_, by decide, rfl, rfl⟩
  simp only [login_user, authenticate_user, h1, h2]
  simp [h3]

/-- C6 witness: db1 stores the inactive user1 with the hash of password
"right"; logging in with that password raises InactiveUserError. -/
theorem C6_inactive_login_distinct_error_witness :
    login_user digest0 db1 "b@x.com" "right" 0 =
      LoginResult.raised AuthExc.inactiveUserError ∧
    AuthExc.inactiveUserError ≠
      AuthExc.authenticationError "Invalid email or password" ∧
    AuthExc.toHTTP AuthExc.inactiveUserError = (401, "Inactive user account") ∧
    (AuthExc.toHTTP
      (AuthExc.authenticationError "Invalid email or password")).1 = 401 :=
  C6_inactive_login_distinct_error digest0 db1 "b@x.com" "right" 0 user1
    rfl rfl rfl

/-- C6 counterexample: the claim says the inactive-account failure
renders as a forbidden-class (403) response, distinct from the
unauthorized-class rendering of credential failures; but
InactiveUserError renders with status 401, the same unauthorized class
as the generic credential failure, and 401 is not 403. -/
theorem C6_forbidden_class_counterexample :
    login_user digest0 db1 "b@x.com" "right" 0 =
      LoginResult.raised AuthExc.inactiveUserError ∧
    (AuthExc.toHTTP AuthExc.inactiveUserError).1 = 401 ∧
    (AuthExc.toHTTP
      (AuthExc.authenticationError "Invalid email or password")).1 = 401 ∧
    (401 : Nat) ≠ 403 :=
  ⟨rfl, rfl, rfl, by decide⟩

/-! ### C8: malformed stored hash is distinguishable from wrong password -/

/-- C8 is refuted by the code: with a stored hash string no scheme
identifies, pwd_context.verify raises UnknownHashError (a ValueError),
which authenticate_user and login_user do not catch — it propagates as
an uncaught exception — while an ordinary wrong password raises the
generic AuthenticationError; the two outcomes differ, so a caller can
distinguish a malformed stored hash from a wrong password.  Evaluated
at the failing input: db2 stores user "m@x.com" with hash string
"not-a-hash". -/
theorem C8_malformed_hash_uncaught :
    login_user digest0 db2 "m@x.com" "pw" 0 =
      LoginResult.uncaught PasslibError.unknownHash ∧
    login_user digest0 db0 "a@x.com" "wrong" 0 =
      LoginResult.raised (AuthExc.authenticationError "Invalid email or password") ∧
    LoginResult.uncaught PasslibError.unknownHash ≠
      LoginResult.raised (AuthExc.authenticationError "Invalid email or password") :=
  ⟨rfl, rfl, by decide⟩

/-! ### C9: hasher round-trip, salt freshness, distinct passwords -/

/-- C9: with the argon2 key derivation modelled as an abstract digest
function over (salt, password): verifying a password against its own
hash always succeeds; two hash calls with distinct fresh salts yield
distinct hash values for the same password; and for distinct passwords
whose digests under the stored salt differ (argon2 collision-freeness
at these inputs), verification returns false. -/
theorem C9_hash_verify_roundtrip (digest : String → String → String)
    (p p1 p2 s s1 s2 : String) :
    verify_password digest p (hash_password digest p s) = Except.ok true ∧
    (s1 ≠ s2 → hash_password digest p s1 ≠ hash_password digest p s2) ∧
    (p1 ≠ p2 → digest s p1 ≠ digest s p2 →
      verify_password digest p1 (hash_password digest p2 s) = Except.ok false) := by
  refine ⟨?_, ?_, ?_⟩
  · simp [verify_password, hash_password]
  · intro hs h
    simp only [hash_password, HashStr.argon2.injEq] at h
    exact hs h.1
  · intro hp hd
    simp only [verify_password, hash_password, Except.ok.injEq]
    exact beq_eq_false_iff_ne.mpr hd

/-- C9 witness: under the concrete digest0, password "a" verifies against
its own hash; salts "s1" and "s2" give different hashes of "a"; and "a"
fails to verify against the hash of "b". -/
theorem C9_hash_verify_roundtrip_witness :
    verify_password digest0 "a" (hash_password digest0 "a" "s") = Except.ok true ∧
    hash_password digest0 "a" "s1" ≠ hash_password digest0 "a" "s2" ∧
    verify_password digest0 "a" (hash_password digest0 "b" "s") = Except.ok false :=
  have h := C9_hash_verify_roundtrip digest0 "a" "a" "b" "s" "s1" "s2"
  ⟨h.1, h.2.1 (by decide), h.2.2 (by decide) (by decide)⟩

/-! ### C10: the subject string is not validated by decode_token -/

/-- C10: decode_token does not check that the subject parses to an
integer — a validly signed, unexpired token of the expected kind is
returned whatever string sub holds — and the int(sub) conversion in the
callers runs outside the handlers that classify token errors, so a
signed token with a non-numeric subject escapes the
InvalidAccessToken/InvalidRefreshToken classification: refresh and
get_current_user end in an uncaught ValueError, not a 401. -/
theorem C10_sub_unvalidated_escapes (qa qr : JWTClaims) (db : List User) (now : Int)
    (ha : qa.type = "access") (hr : qr.type = "refresh")
    (hea : ¬ qa.exp < now) (her : ¬ qr.exp < now)
    (hpa : pyInt qa.sub = none) (hpr : pyInt qr.sub = none) :
    decode_token (SignedToken.valid qa) TokenKind.access now =
      Except.ok { sub := qa.sub, exp := qa.exp, iat := qa.iat,
                  type := TokenKind.access } ∧
    decode_token (SignedToken.valid qr) TokenKind.refresh now =
      Except.ok { sub := qr.sub, exp := qr.exp, iat := qr.iat,
                  type := TokenKind.refresh } ∧
    refresh db (SignedToken.valid qr) now =
      RefreshResult.uncaughtValueError qr.sub ∧
    get_current_user db (SignedToken.valid qa) now =
      CurrentUserResult.uncaughtValueError qa.sub := by
  have da := decode_token_valid_ok qa TokenKind.access now hea ha
  have dr := decode_token_valid_ok qr TokenKind.refresh now her hr
  refine ⟨da, dr, ?_, ?_⟩
  · simp only [refresh, dr, hpr]
  · simp only [get_current_user, da, hpa]

/-- C10 witness: the validly signed, unexpired claims with the
non-numeric subject "abc" decode fine, and both refresh and
get_current_user on them end in the uncaught ValueError outcome. -/
theorem C10_sub_unvalidated_escapes_witness :
    decode_token (SignedToken.valid (JWTClaims.mk "abc" 100 0 "access"))
        TokenKind.access 50 =
      Except.ok { sub := "abc", exp := 100, iat := 0, type := TokenKind.access } ∧
    decode_token (SignedToken.valid (JWTClaims.mk "abc" 100 0 "refresh"))
        TokenKind.refresh 50 =
      Except.ok { sub := "abc", exp := 100, iat := 0, type := TokenKind.refresh } ∧
    refresh [] (SignedToken.valid (JWTClaims.mk "abc" 100 0 "refresh")) 50 =
      RefreshResult.uncaughtValueError "abc" ∧
    get_current_user [] (SignedToken.valid (JWTClaims.mk "abc" 100 0 "access")) 50 =
      CurrentUserResult.uncaughtValueError "abc" :=
  C10_sub_unvalidated_escapes (JWTClaims.mk "abc" 100 0 "access")
    (JWTClaims.mk "abc" 100 0 "refresh") [] 50 rfl rfl (by decide) (by decide)
    (by decide) (by decide)

end FastapiAuth
